import Mathlib

/-!
Verification of the TL1/UNM protocol client of the `provisioning-assistant`
repository.  Go strings are modelled as lists of characters (`GoStr`); the
relevant Go functions of `src/internal/unm/unm.go`, `src/unnamed/part_001`
(package `unm`) and `src/unnamed/part_002` (package `tl1`) are translated
one-to-one into executable Lean definitions.  Go's `error` values are
modelled by their rendered text (`GoStr`), since the client classifies
errors purely by their text; a `fmt.Errorf("p: %w", e)` wrap is text
concatenation.  Go run-time panics (slice bounds) are modelled explicitly
by the `GoOutcome.panic` constructor.
-/

/-- Go strings, modelled as lists of characters. -/
abbrev GoStr := List Char

/-- Coerce a Lean string literal into the `GoStr` model. -/
def str (s : String) : GoStr := s.data

/-- The whitespace predicate of Go's `unicode.IsSpace`, restricted to the
Latin-1 characters (the protocol payloads are ASCII). -/
def goIsSpace (c : Char) : Bool :=
  c = ' ' || c = '\t' || c = '\n' || c = '\u000B' || c = '\u000C' || c = '\r' ||
  c = '\u0085' || c = '\u00A0'

/-- Go's `strings.TrimSpace`. -/
def trimSpace (s : GoStr) : GoStr :=
  ((s.dropWhile goIsSpace).reverse.dropWhile goIsSpace).reverse

/-- Go's `strings.Split` on a single-character separator: `n` separators
yield `n+1` (possibly empty) pieces. -/
def strSplit (sep : Char) : GoStr → List GoStr
  | [] => [[]]
  | c :: rest =>
    if c = sep then [] :: strSplit sep rest
    else
      match strSplit sep rest with
      | [] => [[c]]
      | h :: t => (c :: h) :: t

/-- Go's `strings.ReplaceAll(s, "\r", "")`. -/
def removeCR (s : GoStr) : GoStr := s.filter (fun c => decide (c ≠ '\r'))

/-- Go's `strings.ToLower` on one character (ASCII range; the protocol and
all error texts the client lowercases are ASCII where it matters). -/
def charLower (c : Char) : Char :=
  if 'A' ≤ c ∧ c ≤ 'Z' then Char.ofNat (c.toNat + 32) else c

/-- Go's `strings.ToLower`. -/
def goLower (s : GoStr) : GoStr := s.map charLower

/-- Go's `strings.HasPrefix`, the prefix test underlying `strings.Contains`. -/
def strStartsWith : GoStr → GoStr → Bool
  | _, [] => true
  | [], _ :: _ => false
  | c :: s, d :: t => c == d && strStartsWith s t

/-- Go's `strings.Contains`: does `sub` occur contiguously in `s`? -/
def goContains : GoStr → GoStr → Bool
  | [], sub => strStartsWith [] sub
  | c :: t, sub => strStartsWith (c :: t) sub || goContains t sub

/-- Decimal digits of a natural number, with explicit fuel. -/
def natToCharsAux : Nat → Nat → List Char → List Char
  | 0, _, acc => acc
  | fuel + 1, n, acc =>
    let d := Char.ofNat (48 + n % 10)
    if n < 10 then d :: acc
    else natToCharsAux fuel (n / 10) (d :: acc)

/-- Rendering of Go's `fmt.Sprintf("%d", n)` for unsigned integers. -/
def natToChars (n : Nat) : GoStr := natToCharsAux (n + 1) n []

/-- Model of `regexp.MustCompile("EADD=(.*)").FindStringSubmatch`: the
match starts at the leftmost occurrence of the literal `EADD=`, and the
group `(.*)` greedily captures up to the end of that line (Go's `.` does
not match a newline).  Returns the captured group. -/
def eaddCapture : GoStr → Option GoStr
  | [] => none
  | c :: t =>
    if strStartsWith (c :: t) (str "EADD=") then
      some (((c :: t).drop 5).takeWhile (fun d => decide (d ≠ '\n')))
    else eaddCapture t

/-- Outcome of a Go computation: a value, a non-nil `error`, or a run-time
panic (slice bounds out of range). -/
inductive GoOutcome (α : Type) where
  | ok : α → GoOutcome α
  | error : GoStr → GoOutcome α
  | panic : GoOutcome α
deriving DecidableEq

/-- The Go slice expression `l[lo:hi]`: panics unless `0 ≤ lo ≤ hi ≤ len l`
(for the slices in this code `cap = len`). -/
def goSlice (l : List GoStr) (lo hi : Int) : GoOutcome (List GoStr) :=
  if 0 ≤ lo ∧ lo ≤ hi ∧ hi ≤ (l.length : Int) then
    GoOutcome.ok ((l.drop lo.toNat).take (hi - lo).toNat)
  else GoOutcome.panic

/-! ## Package `unm`: constants and records (src/internal/unm/unm.go, src/unnamed/part_000) -/

def HeaderLines : Nat := 8

def FooterLines : Int := -2

def RequiredColumns : Nat := 13

/-- `ErrInsufficientData` (unm.go:34). -/
def ErrInsufficientData : GoStr := str "dados insuficientes na resposta"

/-- `OpticalNetworkUnitInfo` (src/unnamed/part_000:19). -/
structure OpticalNetworkUnitInfo where
  OnuID             : GoStr
  RxPower           : GoStr
  RxPowerStatus     : GoStr
  TxPower           : GoStr
  TxPowerStatus     : GoStr
  CurrTxBias        : GoStr
  CurrTxBiasStatus  : GoStr
  Temperature       : GoStr
  TemperatureStatus : GoStr
  Voltage           : GoStr
  VoltageStatus     : GoStr
  PTxPower          : GoStr
  PRxPower          : GoStr
deriving DecidableEq

/-- `OpticalNetworkUnit` (src/unnamed/part_000:3); `HwVer` is never set by
the list decoder and keeps its zero value. -/
structure OpticalNetworkUnit where
  OltID    : GoStr
  PonID    : GoStr
  OnuNo    : GoStr
  Name     : GoStr
  Desc     : GoStr
  OnuType  : GoStr
  IP       : GoStr
  AuthType : GoStr
  Mac      : GoStr
  LoID     : GoStr
  Pwd      : GoStr
  SwVer    : GoStr
  HwVer    : GoStr := []
deriving DecidableEq

/-! ## Response decoding (src/internal/unm/unm.go:441-498, src/unnamed/part_001:526-653) -/

/-- `splitAndTrimLines` (unm.go:487): the non-empty trimmed lines of the
input, in order. -/
def splitAndTrimLines (input : GoStr) : List GoStr :=
  (strSplit '\n' input).filterMap fun line =>
    let t := trimSpace line
    if t ≠ [] then some t else none

/-- `parseResponseLines` (unm.go:441). -/
def parseResponseLines (response : GoStr) (minLines : Nat) : GoOutcome (List GoStr) :=
  let lines := splitAndTrimLines (removeCR response)
  if lines.length ≤ minLines then GoOutcome.error ErrInsufficientData
  else GoOutcome.ok lines

/-- `buildONUInfoFromResponse` (unm.go:453; identical logic in
part_001:539), including the Go bounds behaviour of the slice expression
`lines[HeaderLines : len(lines)+FooterLines]`. -/
def buildONUInfoFromResponse (response : GoStr) : GoOutcome OpticalNetworkUnitInfo :=
  match parseResponseLines response HeaderLines with
  | GoOutcome.error e =>
      GoOutcome.error (str "informações ópticas receberam argumentos inválidos: " ++ e)
  | GoOutcome.panic => GoOutcome.panic
  | GoOutcome.ok lines =>
    match goSlice lines (HeaderLines : Int) ((lines.length : Int) + FooterLines) with
    | GoOutcome.error e => GoOutcome.error e
    | GoOutcome.panic => GoOutcome.panic
    | GoOutcome.ok resultLine =>
      if resultLine = [] then GoOutcome.error ErrInsufficientData
      else
        let items := strSplit '\t' (resultLine.headD [])
        if items.length < RequiredColumns then
          GoOutcome.error (str "buffer de leitura do resultado do comando optical_info não corresponde: esperado "
            ++ natToChars RequiredColumns ++ str " colunas, recebido " ++ natToChars items.length)
        else
          GoOutcome.ok
            { OnuID := items.getD 0 []
              RxPower := items.getD 1 []
              RxPowerStatus := items.getD 2 []
              TxPower := items.getD 3 []
              TxPowerStatus := items.getD 4 []
              CurrTxBias := items.getD 5 []
              CurrTxBiasStatus := items.getD 6 []
              Temperature := items.getD 7 []
              TemperatureStatus := items.getD 8 []
              Voltage := items.getD 9 []
              VoltageStatus := items.getD 10 []
              PTxPower := items.getD 11 []
              PRxPower := items.getD 12 [] }

/-- `matchesFilter` (part_001:619). -/
def matchesFilter (name desc filter : GoStr) : Bool :=
  goContains (goLower name) (goLower filter) || goContains (goLower desc) (goLower filter)

/-- `createONUFromAttributes` (part_001:628). -/
def createONUFromAttributes (attrs : List GoStr) : GoOutcome OpticalNetworkUnit :=
  if attrs.length < 12 then
    GoOutcome.error (str "insufficient attributes: expected 12, got " ++ natToChars attrs.length)
  else
    let t := attrs.map trimSpace
    GoOutcome.ok
      { OltID := t.getD 0 []
        PonID := t.getD 1 []
        OnuNo := t.getD 2 []
        Name := t.getD 3 []
        Desc := t.getD 4 []
        OnuType := t.getD 5 []
        IP := t.getD 6 []
        AuthType := t.getD 7 []
        Mac := t.getD 8 []
        LoID := t.getD 9 []
        Pwd := t.getD 10 []
        SwVer := t.getD 11 [] }

/-- `processONULine` (part_001:605).  `GoOutcome.ok none` models Go's
`(nil, nil)` skip of header/malformed/filtered lines; a `GoOutcome.error`
would be logged and skipped by the caller. -/
def processONULine (line filter : GoStr) : GoOutcome (Option OpticalNetworkUnit) :=
  let attrs := strSplit '\t' line
  if attrs.length ≠ 12 ∨ attrs.getD 0 [] = str "OLTID" then GoOutcome.ok none
  else if filter ≠ [] ∧ ¬ matchesFilter (attrs.getD 3 []) (attrs.getD 4 []) filter then
    GoOutcome.ok none
  else
    match createONUFromAttributes attrs with
    | GoOutcome.ok onu => GoOutcome.ok (some onu)
    | GoOutcome.error e => GoOutcome.error e
    | GoOutcome.panic => GoOutcome.panic

/-- `buildONUsFromResponse` (part_001:587): iterates over the raw lines,
skips empty ones, logs-and-skips per-line failures, and always returns a
nil error (the second component). -/
def buildONUsFromResponse (response filter : GoStr) : List OpticalNetworkUnit × Option GoStr :=
  let onus := (strSplit '\n' response).foldl
    (fun acc line =>
      let t := trimSpace line
      if t ≠ [] then
        match processONULine t filter with
        | GoOutcome.ok (some onu) => acc ++ [onu]
        | _ => acc
      else acc) []
  (onus, none)

/-- `isResponseErr` (unm.go:265): scan the response for the `EADD=` error
marker; a non-empty trimmed capture is a server error. -/
def isResponseErr (response : GoStr) : Option GoStr :=
  match eaddCapture response with
  | some cap =>
    let errorMsg := trimSpace cap
    if errorMsg ≠ [] then some (str "erro do servidor UNM: " ++ errorMsg) else none
  | none => none

/-! ## The `Transporter` interface and the UNM client (src/internal/unm/unm.go) -/

/-- The `Transporter` interface (unm.go:40), modelled as a state machine
over an abstract transporter state `τ`: each method maps the current state
to a new state plus its Go result.  `send` returns either the response text
or a transport error text. -/
structure TransporterOps (τ : Type) where
  close : τ → τ × Option GoStr
  reconnect : τ → τ × Option GoStr
  isConnected : τ → Bool
  send : τ → GoStr → τ × Except GoStr GoStr

/-- The mutable fields of `UNMClient` (unm.go:61): the transporter and the
mutex-guarded `connected` (authenticated) flag. -/
structure ClientSt (τ : Type) where
  tr : τ
  connected : Bool
deriving DecidableEq

/-- The immutable credentials of `UNMClient`. -/
structure UNMClientCfg where
  username : GoStr
  password : GoStr

variable {τ : Type}

/-- `sendCommand` (unm.go:211): send, wrap transport failures, then scan
the response for the `EADD=` server-error marker. -/
def sendCommand (ops : TransporterOps τ) (st : ClientSt τ) (command : GoStr) :
    ClientSt τ × Except GoStr GoStr :=
  match ops.send st.tr command with
  | (tr', Except.error e) => ({ st with tr := tr' }, Except.error (str "falha no comando: " ++ e))
  | (tr', Except.ok response) =>
    match isResponseErr response with
    | some e => ({ st with tr := tr' }, Except.error e)
    | none => ({ st with tr := tr' }, Except.ok response)

/-- The interpolated `LoginCommand` template (unm.go:19). -/
def LoginCmd (cfg : UNMClientCfg) : GoStr :=
  str "LOGIN:::CTAG::UN=" ++ cfg.username ++ str ",PWD=" ++ cfg.password ++ str ";"

/-- `LogoutCommand` (unm.go:20). -/
def LogoutCommand : GoStr := str "LOGOUT:::CTAG::;"

/-- `Login` (unm.go:83). -/
def Login (ops : TransporterOps τ) (cfg : UNMClientCfg) (st : ClientSt τ) :
    ClientSt τ × Option GoStr :=
  match sendCommand ops st (LoginCmd cfg) with
  | (st', Except.error e) => (st', some (str "falha no login: " ++ e))
  | (st', Except.ok _) => (st', none)

/-- `Logout` (unm.go:94): a no-op success when the transport is already
disconnected. -/
def Logout (ops : TransporterOps τ) (st : ClientSt τ) : ClientSt τ × Option GoStr :=
  if ops.isConnected st.tr then
    match sendCommand ops st LogoutCommand with
    | (st', Except.error e) => (st', some (str "falha no logout: " ++ e))
    | (st', Except.ok _) => (st', none)
  else (st, none)

/-- `errors.Join` of at most two errors (rendered newline-separated). -/
def joinErrs : Option GoStr → Option GoStr → Option GoStr
  | none, none => none
  | some a, none => some a
  | none, some b => some b
  | some a, some b => some (a ++ '\n' :: b)

/-- The unexported `close` (unm.go:277): clear the flag, attempt logout,
close the transporter, join the errors. -/
def closeClient (ops : TransporterOps τ) (st : ClientSt τ) : ClientSt τ × Option GoStr :=
  let st1 : ClientSt τ := { st with connected := false }
  let p := Logout ops st1
  let q := ops.close p.1.tr
  ({ p.1 with tr := q.1 }, joinErrs p.2 q.2)

/-- `reconnectAndLogin` (unm.go:251). -/
def reconnectAndLogin (ops : TransporterOps τ) (cfg : UNMClientCfg) (st : ClientSt τ) :
    ClientSt τ × Option GoStr :=
  match ops.reconnect st.tr with
  | (tr', some e) => ({ st with tr := tr' }, some (str "falha na reconexão: " ++ e))
  | (tr', none) =>
    match Login ops cfg { st with tr := tr' } with
    | (st'', some e) =>
      let q := ops.close st''.tr
      ({ st'' with tr := q.1 }, some (str "falha no login após reconexão: " ++ e))
    | (st'', none) => (st'', none)

/-- `ensureConnection` (unm.go:225).  Note: in the branch where the
transport reports disconnected, the Go code returns success WITHOUT
setting `connected`; only the force-close branch sets it. -/
def ensureConnection (ops : TransporterOps τ) (cfg : UNMClientCfg) (st : ClientSt τ) :
    ClientSt τ × Option GoStr :=
  if st.connected then (st, none)
  else if ops.isConnected st.tr then
    let p := closeClient ops st
    match reconnectAndLogin ops cfg p.1 with
    | (st', some e) => (st', some (str "falha ao reconectar: " ++ e))
    | (st', none) => ({ st' with connected := true }, none)
  else
    match reconnectAndLogin ops cfg st with
    | (st', some e) => (st', some (str "falha ao estabelecer conexão: " ++ e))
    | (st', none) => (st', none)

/-- `isIllegalSessionError` (unm.go:170), on the rendered error text. -/
def isIllegalSessionError (e : GoStr) : Bool :=
  goContains (goLower e) (str "illegal session")

/-- `MaxRetryAttempts` (unm.go:27). -/
def MaxRetryAttempts : Nat := 3

/-- The loop body of `execRetry` (unm.go:178), with `fuel` the number of
remaining attempts and `lastErr` the last recorded error.  An
`ensureConnection` failure records the error and continues; an operation
failure is retried (after clearing the flag) only when it is an
illegal-session error, and is returned immediately otherwise. -/
def execRetryAux (ops : TransporterOps τ) (cfg : UNMClientCfg)
    (operation : ClientSt τ → ClientSt τ × Option GoStr) :
    Nat → ClientSt τ → Option GoStr → ClientSt τ × Option GoStr
  | 0, st, lastErr =>
      (st, some (str "número máximo de tentativas excedido: " ++ lastErr.getD (str "<nil>")))
  | fuel + 1, st, _lastErr =>
      match ensureConnection ops cfg st with
      | (st', some e) => execRetryAux ops cfg operation fuel st' (some e)
      | (st', none) =>
        match operation st' with
        | (st'', none) => (st'', none)
        | (st'', some e) =>
          if isIllegalSessionError e then
            execRetryAux ops cfg operation fuel { st'' with connected := false } (some e)
          else (st'', some e)

/-- `execRetry` (unm.go:178): 3 attempts, then `ErrMaxRetriesExceeded`
wrapping the last error. -/
def execRetry (ops : TransporterOps τ) (cfg : UNMClientCfg)
    (operation : ClientSt τ → ClientSt τ × Option GoStr) (st : ClientSt τ) :
    ClientSt τ × Option GoStr :=
  execRetryAux ops cfg operation MaxRetryAttempts st none

/-! ## ONU provisioning (src/internal/unm/unm.go:137-438) -/

/-- `OnuProvisioningConfig` (unm.go:47). -/
structure OnuProvisioningConfig where
  OltIP        : GoStr
  PonSlot      : Nat
  PonPort      : Nat
  Serial       : GoStr
  SplitterName : GoStr
  SplitterPort : GoStr
  ClientName   : GoStr
  Model        : GoStr
  Vlan         : GoStr
  PPPoEUser    : GoStr
  PPPoEPass    : GoStr

/-- `ErrInvalidConfig` (unm.go:37). -/
def ErrInvalidConfig : GoStr := str "configuração de provisionamento inválida"

/-- `validateProvisioningConfig` (unm.go:297). -/
def validateProvisioningConfig (config : OnuProvisioningConfig) : Option GoStr :=
  if config.OltIP = [] then some (ErrInvalidConfig ++ str ": IP da OLT é obrigatório")
  else if config.Serial = [] then
    some (ErrInvalidConfig ++ str ": endereço físico do equipamento é obrigatório")
  else if config.Model = [] then some (ErrInvalidConfig ++ str ": modelo é obrigatório")
  else if config.Vlan = [] then some (ErrInvalidConfig ++ str ": VLAN é obrigatório")
  else if config.PPPoEUser = [] then some (ErrInvalidConfig ++ str ": usuário PPPoE é obrigatório")
  else if config.PPPoEPass = [] then some (ErrInvalidConfig ++ str ": senha PPPoE é obrigatório")
  else none

/-- The interpolated `DeleteOnuCommand` template (unm.go:22). -/
def DeleteOnuCmd (c : OnuProvisioningConfig) : GoStr :=
  str "DEL-ONU::OLTID=" ++ c.OltIP ++ str ",PONID=NA-NA-" ++ natToChars c.PonSlot ++
  str "-" ++ natToChars c.PonPort ++ str ":CTAG::ONUIDTYPE=MAC,ONUID=" ++ c.Serial ++ str ";"

/-- The interpolated `AddOnuCommand` template (unm.go:23); the `NAME=`
field interpolates splitter name, splitter port and client name in the
source's argument order. -/
def AddOnuCmd (c : OnuProvisioningConfig) : GoStr :=
  str "ADD-ONU::OLTID=" ++ c.OltIP ++ str ",PONID=NA-NA-" ++ natToChars c.PonSlot ++
  str "-" ++ natToChars c.PonPort ++ str ":CTAG::AUTHTYPE=MAC,ONUID=" ++ c.Serial ++
  str ",NAME=" ++ c.SplitterName ++ str " | " ++ c.SplitterPort ++ str " - " ++
  c.ClientName ++ str ",ONUTYPE=" ++ c.Model ++ str ";"

/-- The interpolated `SetWanServiceCommand` template (unm.go:24);
`PPPOENAME` reuses the PPPoE user. -/
def SetWanServiceCmd (c : OnuProvisioningConfig) (portConfig : GoStr) : GoStr :=
  str "SET-WANSERVICE::OLTID=" ++ c.OltIP ++ str ",PONID=NA-NA-" ++ natToChars c.PonSlot ++
  str "-" ++ natToChars c.PonPort ++ str ",ONUIDTYPE=MAC,ONUID=" ++ c.Serial ++
  str ":CTAG::STATUS=1,MODE=3,CONNTYPE=2,VLAN=" ++ c.Vlan ++
  str ",COS=0,QOS=2,NAT=1,IPMODE=3,IPSTACKMODE=1,IP6SRCTYPE=0,PPPOEPROXY=2,PPPOEUSER=" ++
  c.PPPoEUser ++ str ",PPPOEPASSWD=" ++ c.PPPoEPass ++ str ",PPPOENAME=" ++ c.PPPoEUser ++
  str ",PPPOEMODE=1," ++ portConfig ++ str ";"

/-- The interpolated `ActivateLanPortCommand` template (unm.go:25). -/
def ActivateLanPortCmd (c : OnuProvisioningConfig) : GoStr :=
  str "ACT-LANPORT::OLTID=" ++ c.OltIP ++ str ",PONID=NA-NA-" ++ natToChars c.PonSlot ++
  str "-" ++ natToChars c.PonPort ++ str ",ONUIDTYPE=MAC,ONUID=" ++ c.Serial ++
  str ",ONUPORT=NA-NA-NA-1:CTAG::;"

/-- `deleteONU` (unm.go:320). -/
def deleteONU (ops : TransporterOps τ) (st : ClientSt τ) (c : OnuProvisioningConfig) :
    ClientSt τ × Option GoStr :=
  match sendCommand ops st (DeleteOnuCmd c) with
  | (st', Except.error e) => (st', some (str "falha ao deletar ONU: " ++ e))
  | (st', Except.ok _) => (st', none)

/-- `addONU` (unm.go:342). -/
def addONU (ops : TransporterOps τ) (st : ClientSt τ) (c : OnuProvisioningConfig) :
    ClientSt τ × Option GoStr :=
  match sendCommand ops st (AddOnuCmd c) with
  | (st', Except.error e) => (st', some (str "falha ao adicionar ONU: " ++ e))
  | (st', Except.ok _) => (st', none)

/-- `setWanService` (unm.go:390). -/
def setWanService (ops : TransporterOps τ) (st : ClientSt τ) (c : OnuProvisioningConfig)
    (portConfig : GoStr) : ClientSt τ × Option GoStr :=
  match sendCommand ops st (SetWanServiceCmd c portConfig) with
  | (st', Except.error e) => (st', some (str "falha ao configurar serviço WAN: " ++ e))
  | (st', Except.ok _) => (st', none)

/-- `activateLanPort` (unm.go:419). -/
def activateLanPort (ops : TransporterOps τ) (st : ClientSt τ) (c : OnuProvisioningConfig) :
    ClientSt τ × Option GoStr :=
  match sendCommand ops st (ActivateLanPortCmd c) with
  | (st', Except.error e) => (st', some (str "falha ao ativar porta LAN: " ++ e))
  | (st', Except.ok _) => (st', none)

/-- The fixed `portConfigs` slice (unm.go:371). -/
def portConfigs : List GoStr :=
  [str "UPORT=1", str "UPORT=2", str "UPORT=3", str "UPORT=4", str "SSID=1", str "SSID=5"]

/-- The loop of `configureWanServices` (unm.go:370): the first failing
profile aborts the remaining ones, wrapped with the selector's name. -/
def configureWanServicesAux (ops : TransporterOps τ) (c : OnuProvisioningConfig) :
    List GoStr → ClientSt τ → ClientSt τ × Option GoStr
  | [], st => (st, none)
  | pc :: rest, st =>
    match setWanService ops st c pc with
    | (st', some e) =>
      (st', some (str "falha ao configurar serviço WAN para " ++ pc ++ str ": " ++ e))
    | (st', none) => configureWanServicesAux ops c rest st'

/-- `configureWanServices` (unm.go:370). -/
def configureWanServices (ops : TransporterOps τ) (st : ClientSt τ)
    (c : OnuProvisioningConfig) : ClientSt τ × Option GoStr :=
  configureWanServicesAux ops c portConfigs st

/-- The closure passed to `execRetry` by `OnuProvisioning` (unm.go:142):
delete (failure logged and swallowed), add, configure WAN services,
activate; the first failure among the last three aborts and is wrapped. -/
def provisioningOp (ops : TransporterOps τ) (c : OnuProvisioningConfig) (st : ClientSt τ) :
    ClientSt τ × Option GoStr :=
  let p := deleteONU ops st c
  match addONU ops p.1 c with
  | (st2, some e) => (st2, some (str "falha ao adicionar ONU: " ++ e))
  | (st2, none) =>
    match configureWanServices ops st2 c with
    | (st3, some e) => (st3, some (str "falha ao configurar serviços WAN: " ++ e))
    | (st3, none) =>
      match activateLanPort ops st3 c with
      | (st4, some e) => (st4, some (str "falha ao ativar porta LAN: " ++ e))
      | (st4, none) => (st4, none)

/-- `OnuProvisioning` (unm.go:137): validate, then run the 4-step sequence
under the retry wrapper. -/
def OnuProvisioning (ops : TransporterOps τ) (cfg : UNMClientCfg)
    (c : OnuProvisioningConfig) (st : ClientSt τ) : ClientSt τ × Option GoStr :=
  match validateProvisioningConfig c with
  | some e => (st, some (str "configuração de provisionamento inválida: " ++ e))
  | none => execRetry ops cfg (fun s => provisioningOp ops c s) st

/-! ## Package `tl1`: the TL1 transport (src/unnamed/part_002) -/

namespace TL1

/-- Outcome of the 1-byte probe read `t.conn.Read(buffer)` inside
`isConnectionAlive` (part_002:87). -/
inductive ReadRes where
  | ok : ReadRes
  | timeout : ReadRes
  | eof : ReadRes
  | err : GoStr → ReadRes
deriving DecidableEq

/-- `ErrNotConnected` (part_002:24). -/
def ErrNotConnected : GoStr := str "not connected to server"

/-- `isConnectionAlive` (part_002:75), parameterised by whether `conn` is
nil, by the outcome of `SetReadDeadline`, and by the probe read's outcome
(`ok` = a byte was read with a nil error).  Returns the Go error, `none`
meaning the connection is considered alive. -/
def isConnectionAlive (connNil : Bool) (setDeadlineErr : Option GoStr) (read : ReadRes) :
    Option GoStr :=
  if connNil then some ErrNotConnected
  else
    match setDeadlineErr with
    | some e => some (str "failed to set read deadline: " ++ e)
    | none =>
      match read with
      | ReadRes.timeout => none
      | ReadRes.ok => none
      | ReadRes.eof => some (str "connection check failed: EOF")
      | ReadRes.err m => some (str "connection check failed: " ++ m)

/-- The mutable state of `TL1Transport` (part_002:31): whether `conn` is
non-nil, and the `closed` flag. -/
structure TL1St where
  conn : Bool
  closed : Bool
deriving DecidableEq

/-- The environment of one transport call: the rendered outcome of
`net.DialTimeout` used by `connect` (`none` = success), the outcomes of
`SetReadDeadline` and of the probe read inside `isConnectionAlive`, the
socket-write outcome, and `readResponse`'s result. -/
structure NetBehavior where
  dial : Option GoStr
  setDeadlineErr : Option GoStr
  probe : ReadRes
  writeErr : Option GoStr
  readResp : Except GoStr GoStr

/-- `connect` (part_002:61): on success a new socket is installed and
`closed` is cleared; on dial failure the state is unchanged. -/
def connect (dial : Option GoStr) (st : TL1St) : TL1St × Option GoStr :=
  match dial with
  | some e => (st, some e)
  | none => ({ conn := true, closed := false }, none)

/-- `ensureConnection` (part_002:104).  The `errors.Is(err, ErrNotConnected)`
test succeeds exactly when `isConnectionAlive` found a nil `conn`; its other
errors are `%w`-wraps of distinct errors. -/
def ensureConnection (nb : NetBehavior) (st : TL1St) : TL1St × Option GoStr :=
  if st.closed then (st, some ErrNotConnected)
  else
    match isConnectionAlive (!st.conn) nb.setDeadlineErr nb.probe with
    | none => (st, none)
    | some e =>
      if st.conn then
        match connect nb.dial st with
        | (st', some re) => (st', some (str "reconnection failed: " ++ re))
        | (st', none) => (st', none)
      else (st, some e)

/-- `Close` (part_002:234): marks the transport closed and nils the socket
(the socket's own close error is not modelled). -/
def Close (st : TL1St) : TL1St × Option GoStr :=
  ({ conn := false, closed := true }, none)

/-- `Reconnect` (part_002:222): closes any existing socket, then dials
anew via `connect`; a successful dial clears the `closed` flag, a failed
dial leaves the state unchanged. -/
def Reconnect (dial : Option GoStr) (st : TL1St) : TL1St × Option GoStr :=
  connect dial st

/-- The error text of `Cmd`'s empty-command guard (part_002:162). -/
def emptyCmdText : GoStr := str "command cannot be empty"

/-- `Cmd` (part_002:160): empty-command guard, closed guard, connection
check, write, read. -/
def Cmd (nb : NetBehavior) (command : GoStr) (st : TL1St) : TL1St × Except GoStr GoStr :=
  if command = [] then (st, Except.error emptyCmdText)
  else if st.closed then (st, Except.error ErrNotConnected)
  else
    match ensureConnection nb st with
    | (st', some e) => (st', Except.error (str "connection check failed: " ++ e))
    | (st', none) =>
      match nb.writeErr with
      | some w => (st', Except.error (str "failed to send command: " ++ w))
      | none =>
        match nb.readResp with
        | Except.error re => (st', Except.error (str "failed to read response: " ++ re))
        | Except.ok r => (st', Except.ok r)

/-- `Send` (part_002:192): the empty-command guard precedes everything;
otherwise `Cmd` runs on a goroutine racing the caller's context.  On
cancellation the context error is returned while the background `Cmd`
still runs to completion (its state effects happen, its result is
dropped). -/
def Send (nb : NetBehavior) (cancelled : Bool) (command : GoStr) (st : TL1St) :
    TL1St × Except GoStr GoStr :=
  if command = [] then (st, Except.error emptyCmdText)
  else if cancelled then
    ((Cmd nb command st).1, Except.error (str "command cancelled: context canceled"))
  else Cmd nb command st

end TL1

/-! ## Scenario environments and concrete inputs used by the theorems -/

/-- Credentials used in scenario runs. -/
def cfg0 : UNMClientCfg := { username := str "admin", password := str "secret" }

/-- A marker-free server response. -/
def okResp : GoStr := str "OK;"

/-- Transporter scenario for the retry theorems: reports disconnected,
`Reconnect`/`Close` succeed, every send returns a marker-free response;
the transporter-state slot is a counter left untouched by transport calls. -/
def retryOps : TransporterOps Nat :=
  { close := fun t => (t, none)
    reconnect := fun t => (t, none)
    isConnected := fun _ => false
    send := fun t _ => (t, Except.ok okResp) }

/-- Transporter scenario whose `Reconnect` always fails with the transport
error `c`. -/
def failConnOps (c : GoStr) : TransporterOps Nat :=
  { close := fun t => (t, none)
    reconnect := fun t => (t, some c)
    isConnected := fun _ => false
    send := fun t _ => (t, Except.ok okResp) }

/-- An operation whose `i`-th invocation returns `opErr i`, counting its
invocations in the transporter-state slot. -/
def countingOp (opErr : Nat → Option GoStr) (st : ClientSt Nat) : ClientSt Nat × Option GoStr :=
  ({ st with tr := st.tr + 1 }, opErr st.tr)

/-- Transporter scenario for `ensureConnection`: disconnected at the
transport level; reconnect and login succeed. -/
def disconnOps : TransporterOps Unit :=
  { close := fun _ => ((), none)
    reconnect := fun _ => ((), none)
    isConnected := fun _ => false
    send := fun _ _ => ((), Except.ok okResp) }

/-- Transporter scenario for `ensureConnection`: still connected at the
transport level; reconnect and login succeed. -/
def connOps : TransporterOps Unit :=
  { close := fun _ => ((), none)
    reconnect := fun _ => ((), none)
    isConnected := fun _ => true
    send := fun _ _ => ((), Except.ok okResp) }

/-- A transporter whose every send succeeds at the transport level with
the fixed response `resp`. -/
def fixedRespOps (resp : GoStr) : TransporterOps Unit :=
  { close := fun _ => ((), none)
    reconnect := fun _ => ((), none)
    isConnected := fun _ => true
    send := fun _ _ => ((), Except.ok resp) }

/-- Trace of a transporter: number of sends so far and the commands sent,
in order. -/
structure TraceSt where
  idx : Nat
  sent : List GoStr
deriving DecidableEq

/-- A recording transporter whose `i`-th send returns `script i`. -/
def scriptOps (script : Nat → Except GoStr GoStr) : TransporterOps TraceSt :=
  { close := fun t => (t, none)
    reconnect := fun t => (t, none)
    isConnected := fun _ => true
    send := fun t cmd => ({ idx := t.idx + 1, sent := t.sent ++ [cmd] }, script t.idx) }

/-- A benign network environment for transport scenarios: the probe times
out (alive), dial and write succeed, the response read yields `RESP;`. -/
def benignNB : TL1.NetBehavior :=
  { dial := none
    setDeadlineErr := none
    probe := TL1.ReadRes.timeout
    writeErr := none
    readResp := Except.ok (str "RESP;") }

/-- Join wire lines with the `\n` separator (the response shape the
wire-format theorems quantify over). -/
def joinLines : List GoStr → GoStr
  | [] => []
  | [l] => l
  | l :: l' :: ls => l ++ '\n' :: joinLines (l' :: ls)

/-- A canonical wire line: non-empty, already trimmed, and free of line
terminators. -/
def cleanLine (l : GoStr) : Bool :=
  decide (l ≠ []) && decide (trimSpace l = l) &&
  l.all (fun c => decide (c ≠ '\n')) && l.all (fun c => decide (c ≠ '\r'))

/-- A response with exactly nine non-empty lines: C1's failing input. -/
def nineLineResp : GoStr := str "l1\nl2\nl3\nl4\nl5\nl6\nl7\nl8\nl9"

/-- Eight concrete header lines for the optical-info witness. -/
def wHeaders : List GoStr :=
  [str "h1", str "h2", str "h3", str "h4", str "h5", str "h6", str "h7", str "h8"]

/-- A concrete data line with 13 tab-separated fields. -/
def wDataLine : GoStr := str "a\tb\tc\td\te\tf\tg\th\ti\tj\tk\tl\tm"

/-- The provisioning configuration of the spec's orchestration scenario. -/
def wConfig : OnuProvisioningConfig :=
  { OltIP := str "OLT1", PonSlot := 1, PonPort := 2, Serial := str "AABBCC"
    SplitterName := str "SPL", SplitterPort := str "1", ClientName := str "John"
    Model := str "X", Vlan := str "100", PPPoEUser := str "u", PPPoEPass := str "p" }

/-! ## Theorems -/

/-- C10: for the empty command string, the transport's `Cmd` and `Send`
fail immediately with the empty-command error — independently of the whole
network environment, hence before any connection-liveness check, socket
write or socket read — and leave the transport's connection state
unchanged. -/
theorem cmd_send_empty_command_fail_fast (nb : TL1.NetBehavior) (st : TL1.TL1St) (c : Bool) :
    TL1.Cmd nb [] st = (st, Except.error TL1.emptyCmdText)
    ∧ TL1.Send nb c [] st = (st, Except.error TL1.emptyCmdText) := by
  constructor
  · simp [TL1.Cmd]
  · simp [TL1.Send]

/-- C3 (amended): the liveness probe reports "alive" (no error) exactly
when the connection is non-nil, the read deadline was set, and the 1-byte
read either timed out or succeeded; EOF and every other read error report
"dead". -/
theorem isConnectionAlive_characterization (cn : Bool) (sd : Option GoStr) (r : TL1.ReadRes) :
    TL1.isConnectionAlive cn sd r = none ↔
      cn = false ∧ sd = none ∧ (r = TL1.ReadRes.timeout ∨ r = TL1.ReadRes.ok) := by
  cases cn <;> cases sd <;> cases r <;> simp [TL1.isConnectionAlive]

/-- C3 counterexample: a successful 1-byte read of pending data is not a
timeout, yet the probe reports "alive" (returns no error) — contradicting
the claim that every non-timeout outcome, including a successful read,
yields "dead". -/
theorem isConnectionAlive_ok_read_counterexample :
    TL1.ReadRes.ok ≠ TL1.ReadRes.timeout
    ∧ TL1.isConnectionAlive false none TL1.ReadRes.ok = none := by
  exact ⟨by decide, rfl⟩

/-- C4 (code bug): when the authenticated flag is clear and the transport
reports disconnected, a successful reconnect-and-login makes
`ensureConnection` return success with the flag STILL false — only the
force-close branch sets the flag to true; the already-authenticated branch
proceeds with the flag untouched. -/
theorem ensureConnection_flag_behaviour :
    ensureConnection disconnOps cfg0 { tr := (), connected := false } =
      ({ tr := (), connected := false }, none)
    ∧ ensureConnection connOps cfg0 { tr := (), connected := false } =
      ({ tr := (), connected := true }, none)
    ∧ ensureConnection connOps cfg0 { tr := (), connected := true } =
      ({ tr := (), connected := true }, none) := by
  refine ⟨?_, ?_, ?_⟩ <;> rfl

/-- C8 (amended): `Close` is idempotent and sets the closed flag; while
the flag is set, every `Cmd` and every non-cancelled `Send` with a
non-empty command fails with `NotConnected` and leaves the state
unchanged, and a failed `Reconnect` keeps the transport closed; but a
successful `Reconnect` clears the closed flag and re-opens the transport. -/
theorem close_permanent_until_reconnect (st : TL1.TL1St) (nb : TL1.NetBehavior)
    (cmd : GoStr) (d : GoStr) (hcmd : cmd ≠ []) (hst : st.closed = true) :
    TL1.Close (TL1.Close st).1 = TL1.Close st
    ∧ TL1.Cmd nb cmd st = (st, Except.error TL1.ErrNotConnected)
    ∧ TL1.Send nb false cmd st = (st, Except.error TL1.ErrNotConnected)
    ∧ (TL1.Close st).1.closed = true
    ∧ TL1.Reconnect (some d) st = (st, some d)
    ∧ (TL1.Reconnect none st).1 = { conn := true, closed := false } := by
  refine ⟨rfl, ?_, ?_, rfl, rfl, rfl⟩
  · simp [TL1.Cmd, hcmd, hst]
  · simp [TL1.Send, TL1.Cmd, hcmd, hst]

/-- C8 witness: the amended theorem applied to a concrete closed state and
command. -/
theorem close_permanent_until_reconnect_witness :
    (str "CMD;" : GoStr) ≠ []
    ∧ TL1.TL1St.closed { conn := false, closed := true } = true
    ∧ TL1.Cmd benignNB (str "CMD;") { conn := false, closed := true } =
        ({ conn := false, closed := true }, Except.error TL1.ErrNotConnected) := by
  exact ⟨by decide, rfl,
    (close_permanent_until_reconnect { conn := false, closed := true } benignNB
      (str "CMD;") (str "dial failed") (by decide) rfl).2.1⟩

/-- C8 counterexample: `Close` followed by a successful `Reconnect`
re-opens the transport — the closed flag is cleared and a subsequent `Cmd`
succeeds instead of failing with `NotConnected` — so the transport is not
permanently closed once `Close` has been called. -/
theorem close_then_reconnect_reopens_counterexample :
    ((TL1.Reconnect none (TL1.Close { conn := true, closed := false }).1).1).closed = false
    ∧ (TL1.Cmd benignNB (str "LOGOUT:::CTAG::;")
        (TL1.Reconnect none (TL1.Close { conn := true, closed := false }).1).1).2 =
        Except.ok (str "RESP;") := by
  exact ⟨rfl, rfl⟩

/-- The marker-free response `OK;` carries no server error. -/
theorem isResponseErr_okResp : isResponseErr okResp = none := by decide

/-- Under `retryOps`, every send succeeds with the benign response. -/
theorem sendCommand_retryOps (st : ClientSt Nat) (cmd : GoStr) :
    sendCommand retryOps st cmd = (st, Except.ok okResp) := by
  simp [sendCommand, retryOps, isResponseErr_okResp]

/-- Under `retryOps`, login succeeds. -/
theorem Login_retryOps (st : ClientSt Nat) :
    Login retryOps cfg0 st = (st, none) := by
  simp [Login, sendCommand_retryOps]

theorem retryOps_isConnected (t : Nat) : retryOps.isConnected t = false := rfl

theorem retryOps_reconnect (t : Nat) : retryOps.reconnect t = (t, none) := rfl

/-- Under `retryOps`, `ensureConnection` always succeeds and leaves the
flag as it found it (the disconnected branch does not set it). -/
theorem ensureConnection_retryOps (t : Nat) (b : Bool) :
    ensureConnection retryOps cfg0 { tr := t, connected := b } =
      ({ tr := t, connected := b }, none) := by
  cases b
  · rw [ensureConnection]
    simp [retryOps_isConnected, reconnectAndLogin, retryOps_reconnect, Login_retryOps]
  · rfl

/-- Under `failConnOps c`, `ensureConnection` fails with the wrapped
reconnection error. -/
theorem ensureConnection_failConnOps (c : GoStr) (t : Nat) :
    ensureConnection (failConnOps c) cfg0 { tr := t, connected := false } =
      ({ tr := t, connected := false },
        some (str "falha ao estabelecer conexão: " ++ (str "falha na reconexão: " ++ c))) := by
  rw [ensureConnection]
  simp [reconnectAndLogin, failConnOps]

/-- C2 (amended): with connection establishment succeeding on every
attempt, an operation failure whose text does not contain "illegal
session" (case-insensitively) is returned to the caller immediately after
exactly one further operation call, with the flag untouched; an
illegal-session failure first clears the authenticated flag and the
operation is retried; three illegal-session failures exhaust the 3
attempts and yield `MaxRetriesExceeded` wrapping the last error; and a
failing connection-establishment step is itself retried regardless of its
error text, also ending in `MaxRetriesExceeded` after 3 attempts. -/
theorem execRetry_retry_policy (x y z w c : GoStr)
    (hx : isIllegalSessionError x = false)
    (hy : isIllegalSessionError y = true)
    (hz : isIllegalSessionError z = true)
    (hw : isIllegalSessionError w = true) :
    execRetry retryOps cfg0 (countingOp fun _ => some x) { tr := 0, connected := true } =
      ({ tr := 1, connected := true }, some x)
    ∧ execRetry retryOps cfg0 (countingOp fun i => if i = 0 then some y else some x)
        { tr := 0, connected := true } =
      ({ tr := 2, connected := false }, some x)
    ∧ execRetry retryOps cfg0
        (countingOp fun i => if i = 0 then some y else if i = 1 then some z else some w)
        { tr := 0, connected := true } =
      ({ tr := 3, connected := false },
        some (str "número máximo de tentativas excedido: " ++ w))
    ∧ execRetry (failConnOps c) cfg0 (countingOp fun _ => none) { tr := 0, connected := false } =
      ({ tr := 0, connected := false },
        some (str "número máximo de tentativas excedido: " ++
          (str "falha ao estabelecer conexão: " ++ (str "falha na reconexão: " ++ c)))) := by
  refine ⟨?_, ?_, ?_, ?_⟩
  · simp [execRetry, MaxRetryAttempts, execRetryAux, ensureConnection_retryOps, countingOp, hx]
  · simp [execRetry, MaxRetryAttempts, execRetryAux, ensureConnection_retryOps, countingOp, hx, hy]
  · simp [execRetry, MaxRetryAttempts, execRetryAux, ensureConnection_retryOps, countingOp,
      hy, hz, hw]
  · simp [execRetry, MaxRetryAttempts, execRetryAux, ensureConnection_failConnOps]

/-- C2 witness: the amended theorem applied at concrete error texts. -/
theorem execRetry_retry_policy_witness :
    isIllegalSessionError (str "falha no comando: timeout") = false
    ∧ isIllegalSessionError (str "erro do servidor UNM: Illegal Session") = true
    ∧ execRetry retryOps cfg0 (countingOp fun _ => some (str "falha no comando: timeout"))
        { tr := 0, connected := true } =
      ({ tr := 1, connected := true }, some (str "falha no comando: timeout")) := by
  exact ⟨by decide, by decide,
    (execRetry_retry_policy (str "falha no comando: timeout")
      (str "erro do servidor UNM: Illegal Session") (str "erro do servidor UNM: Illegal Session")
      (str "erro do servidor UNM: Illegal Session") (str "refused")
      (by decide) (by decide) (by decide) (by decide)).1⟩

/-- C2 counterexample: on a run where every attempt's
connection-establishment step fails with a transport error not containing
"illegal session", the loop retries it and finally fails with
`MaxRetriesExceeded` instead of returning that first non-illegal-session
failure to the caller immediately. -/
theorem execRetry_conn_error_retried_counterexample :
    isIllegalSessionError
      (str "falha ao estabelecer conexão: " ++ (str "falha na reconexão: " ++ str "connection refused")) = false
    ∧ (execRetry (failConnOps (str "connection refused")) cfg0 (countingOp fun _ => none)
        { tr := 0, connected := false }).2 ≠
        some (str "falha ao estabelecer conexão: " ++ (str "falha na reconexão: " ++ str "connection refused"))
    ∧ (execRetry (failConnOps (str "connection refused")) cfg0 (countingOp fun _ => none)
        { tr := 0, connected := false }).2 =
        some (str "número máximo de tentativas excedido: " ++
          (str "falha ao estabelecer conexão: " ++ (str "falha na reconexão: " ++ str "connection refused"))) := by
  exact ⟨by decide, by decide, by decide⟩

/-- C5: for every valid provisioning configuration, the orchestration
sends, in order, one delete, one add, six WAN-service commands with
selectors UPORT=1..4, SSID=1, SSID=5, then one LAN-port activate; a delete
failure is swallowed and the sequence completes; and when WAN-service
command 3 fails (a non-illegal-session failure), exactly the first five
commands were sent — commands 4–6 and the activate are never issued — and
the returned error is wrapped with the failing selector `UPORT=3`. -/
theorem onuProvisioning_command_sequence (cf : OnuProvisioningConfig) (e : GoStr)
    (h1 : cf.OltIP ≠ []) (h2 : cf.Serial ≠ []) (h3 : cf.Model ≠ [])
    (h4 : cf.Vlan ≠ []) (h5 : cf.PPPoEUser ≠ []) (h6 : cf.PPPoEPass ≠ [])
    (hni : isIllegalSessionError
      (str "falha ao configurar serviços WAN: " ++
        (str "falha ao configurar serviço WAN para " ++ (str "UPORT=3" ++ (str ": " ++
          (str "falha ao configurar serviço WAN: " ++ (str "falha no comando: " ++ e)))))) = false) :
    OnuProvisioning (scriptOps fun _ => Except.ok okResp) cfg0 cf
        { tr := { idx := 0, sent := [] }, connected := true } =
      ({ tr := { idx := 9, sent :=
          [DeleteOnuCmd cf, AddOnuCmd cf,
           SetWanServiceCmd cf (str "UPORT=1"), SetWanServiceCmd cf (str "UPORT=2"),
           SetWanServiceCmd cf (str "UPORT=3"), SetWanServiceCmd cf (str "UPORT=4"),
           SetWanServiceCmd cf (str "SSID=1"), SetWanServiceCmd cf (str "SSID=5"),
           ActivateLanPortCmd cf] }, connected := true }, none)
    ∧ OnuProvisioning (scriptOps fun i => if i = 4 then Except.error e else Except.ok okResp)
        cfg0 cf { tr := { idx := 0, sent := [] }, connected := true } =
      ({ tr := { idx := 5, sent :=
          [DeleteOnuCmd cf, AddOnuCmd cf,
           SetWanServiceCmd cf (str "UPORT=1"), SetWanServiceCmd cf (str "UPORT=2"),
           SetWanServiceCmd cf (str "UPORT=3")] }, connected := true },
        some (str "falha ao configurar serviços WAN: " ++
          (str "falha ao configurar serviço WAN para " ++ (str "UPORT=3" ++ (str ": " ++
            (str "falha ao configurar serviço WAN: " ++ (str "falha no comando: " ++ e)))))))
    ∧ OnuProvisioning (scriptOps fun i => if i = 0 then Except.error e else Except.ok okResp)
        cfg0 cf { tr := { idx := 0, sent := [] }, connected := true } =
      ({ tr := { idx := 9, sent :=
          [DeleteOnuCmd cf, AddOnuCmd cf,
           SetWanServiceCmd cf (str "UPORT=1"), SetWanServiceCmd cf (str "UPORT=2"),
           SetWanServiceCmd cf (str "UPORT=3"), SetWanServiceCmd cf (str "UPORT=4"),
           SetWanServiceCmd cf (str "SSID=1"), SetWanServiceCmd cf (str "SSID=5"),
           ActivateLanPortCmd cf] }, connected := true }, none) := by
  refine ⟨?_, ?_, ?_⟩
  · simp [OnuProvisioning, validateProvisioningConfig, h1, h2, h3, h4, h5, h6,
      execRetry, MaxRetryAttempts, execRetryAux, ensureConnection, provisioningOp,
      deleteONU, addONU, configureWanServices, configureWanServicesAux, setWanService,
      activateLanPort, sendCommand, scriptOps, isResponseErr_okResp, portConfigs]
  · have hop : provisioningOp (scriptOps fun i => if i = 4 then Except.error e else Except.ok okResp) cf
        { tr := { idx := 0, sent := [] }, connected := true } =
        ({ tr := { idx := 5, sent :=
            [DeleteOnuCmd cf, AddOnuCmd cf,
             SetWanServiceCmd cf (str "UPORT=1"), SetWanServiceCmd cf (str "UPORT=2"),
             SetWanServiceCmd cf (str "UPORT=3")] }, connected := true },
          some (str "falha ao configurar serviços WAN: " ++
            (str "falha ao configurar serviço WAN para " ++ (str "UPORT=3" ++ (str ": " ++
              (str "falha ao configurar serviço WAN: " ++ (str "falha no comando: " ++ e))))))) := by
      simp [provisioningOp, deleteONU, addONU, configureWanServices, configureWanServicesAux,
        setWanService, activateLanPort, sendCommand, scriptOps, isResponseErr_okResp, portConfigs]
    simp [OnuProvisioning, validateProvisioningConfig, h1, h2, h3, h4, h5, h6,
      execRetry, MaxRetryAttempts, execRetryAux, ensureConnection, hop, hni]
  · simp [OnuProvisioning, validateProvisioningConfig, h1, h2, h3, h4, h5, h6,
      execRetry, MaxRetryAttempts, execRetryAux, ensureConnection, provisioningOp,
      deleteONU, addONU, configureWanServices, configureWanServicesAux, setWanService,
      activateLanPort, sendCommand, scriptOps, isResponseErr_okResp, portConfigs]

/-- C5 witness: the all-succeed scenario at the spec's concrete
configuration. -/
theorem onuProvisioning_command_sequence_witness :
    wConfig.OltIP ≠ []
    ∧ OnuProvisioning (scriptOps fun _ => Except.ok okResp) cfg0 wConfig
        { tr := { idx := 0, sent := [] }, connected := true } =
      ({ tr := { idx := 9, sent :=
          [DeleteOnuCmd wConfig, AddOnuCmd wConfig,
           SetWanServiceCmd wConfig (str "UPORT=1"), SetWanServiceCmd wConfig (str "UPORT=2"),
           SetWanServiceCmd wConfig (str "UPORT=3"), SetWanServiceCmd wConfig (str "UPORT=4"),
           SetWanServiceCmd wConfig (str "SSID=1"), SetWanServiceCmd wConfig (str "SSID=5"),
           ActivateLanPortCmd wConfig] }, connected := true }, none) := by
  exact ⟨by decide,
    (onuProvisioning_command_sequence wConfig (str "boom") (by decide) (by decide) (by decide)
      (by decide) (by decide) (by decide) (by decide)).1⟩

/-- C1 (code bug): on any response with exactly nine non-empty trimmed
lines — strictly more than the header count 8, but leaving an undersized
data region after the two-line footer trim — the slice expression
`lines[8 : len(lines)-2]` has its lower bound above its upper bound and
the Go code panics instead of returning a format/insufficient-data
error. -/
theorem buildONUInfo_nine_lines_panics (r : GoStr)
    (h : (splitAndTrimLines (removeCR r)).length = 9) :
    buildONUInfoFromResponse r = GoOutcome.panic := by
  rw [buildONUInfoFromResponse, parseResponseLines]
  simp [h, goSlice, HeaderLines, FooterLines]

/-- C1 witness: a concrete nine-line response makes the decoder panic. -/
theorem buildONUInfo_nine_lines_panics_witness :
    (splitAndTrimLines (removeCR nineLineResp)).length = 9
    ∧ buildONUInfoFromResponse nineLineResp = GoOutcome.panic := by
  exact ⟨by decide, buildONUInfo_nine_lines_panics nineLineResp (by decide)⟩

/-- `strSplit` never returns the empty list. -/
theorem strSplit_ne_nil (sep : Char) (s : GoStr) : strSplit sep s ≠ [] := by
  cases s with
  | nil => simp [strSplit]
  | cons c t =>
    rw [strSplit]
    split
    · simp
    · split <;> simp

/-- Splitting a separator-free string yields the string itself. -/
theorem strSplit_no_sep (sep : Char) (s : GoStr) (h : ∀ c ∈ s, c ≠ sep) :
    strSplit sep s = [s] := by
  induction s with
  | nil => rfl
  | cons c t ih =>
    rw [strSplit, if_neg (h c (by simp)), ih (fun d hd => h d (by simp [hd]))]

/-- Splitting peels off a separator-free prefix before a separator. -/
theorem strSplit_append (sep : Char) (a b : GoStr) (h : ∀ c ∈ a, c ≠ sep) :
    strSplit sep (a ++ sep :: b) = a :: strSplit sep b := by
  induction a with
  | nil => simp [strSplit]
  | cons c t ih =>
    rw [List.cons_append, strSplit, if_neg (h c (by simp)),
      ih (fun d hd => h d (by simp [hd]))]

/-- Splitting on the line separator inverts `joinLines` for
newline-free lines. -/
theorem strSplit_joinLines (ls : List GoStr) (hne : ls ≠ [])
    (h : ∀ l ∈ ls, ∀ c ∈ l, c ≠ '\n') :
    strSplit '\n' (joinLines ls) = ls := by
  induction ls with
  | nil => exact absurd rfl hne
  | cons l ls ih =>
    cases ls with
    | nil => simpa [joinLines] using strSplit_no_sep '\n' l (h l (by simp))
    | cons l' ls' =>
      rw [joinLines, strSplit_append '\n' l _ (h l (by simp))]
      rw [ih (by simp) (fun m hm => h m (by simp [hm]))]

/-- `removeCR` is the identity on CR-free strings. -/
theorem removeCR_eq_self (s : GoStr) (h : ∀ c ∈ s, c ≠ '\r') : removeCR s = s := by
  rw [removeCR, List.filter_eq_self]
  intro c hc
  simpa using h c hc

/-- Every character of a joined line list is a newline or a character of
one of the lines. -/
theorem joinLines_mem (ls : List GoStr) (c : Char) (hc : c ∈ joinLines ls) :
    c = '\n' ∨ ∃ l ∈ ls, c ∈ l := by
  induction ls with
  | nil => simp [joinLines] at hc
  | cons l ls ih =>
    cases ls with
    | nil =>
      simp [joinLines] at hc
      exact Or.inr ⟨l, by simp, hc⟩
    | cons l' ls' =>
      rw [joinLines] at hc
      rcases List.mem_append.mp hc with h1 | h2
      · exact Or.inr ⟨l, by simp, h1⟩
      · rcases List.mem_cons.mp h2 with h3 | h4
        · exact Or.inl h3
        · rcases ih h4 with h5 | ⟨m, hm, hcm⟩
          · exact Or.inl h5
          · exact Or.inr ⟨m, List.mem_cons_of_mem l hm, hcm⟩

/-- A `filterMap` whose function fixes every member is the identity. -/
theorem filterMap_some_of_mem {α : Type} (f : α → Option α) (ls : List α)
    (h : ∀ l ∈ ls, f l = some l) : ls.filterMap f = ls := by
  induction ls with
  | nil => rfl
  | cons a t ih =>
    rw [List.filterMap_cons, h a (by simp), ih (fun l hl => h l (by simp [hl]))]

/-- Unpacking the `cleanLine` conjunction. -/
theorem cleanLine_parts (l : GoStr) (h : cleanLine l = true) :
    l ≠ [] ∧ trimSpace l = l ∧ (∀ c ∈ l, c ≠ '\n') ∧ (∀ c ∈ l, c ≠ '\r') := by
  simp [cleanLine, List.all_eq_true] at h
  tauto

/-- `splitAndTrimLines` recovers exactly the lines of a joined list of
canonical wire lines. -/
theorem splitAndTrimLines_joinLines (ls : List GoStr) (hne : ls ≠ [])
    (h : ∀ l ∈ ls, cleanLine l = true) :
    splitAndTrimLines (removeCR (joinLines ls)) = ls := by
  have hnr : ∀ c ∈ joinLines ls, c ≠ '\r' := by
    intro c hc
    rcases joinLines_mem ls c hc with h1 | ⟨m, hm, hcm⟩
    · simp [h1]
    · exact (cleanLine_parts m (h m hm)).2.2.2 c hcm
  have hnn : ∀ l ∈ ls, ∀ c ∈ l, c ≠ '\n' := fun l hl => (cleanLine_parts l (h l hl)).2.2.1
  rw [removeCR_eq_self _ hnr, splitAndTrimLines, strSplit_joinLines ls hne hnn]
  apply filterMap_some_of_mem
  intro l hl
  rcases cleanLine_parts l (h l hl) with ⟨h1, h2, _, _⟩
  simp [h2, h1]

/-- C6: for every response of 8 canonical header lines, one data line with
at least 13 tab-separated fields, and 2 footer lines, decoding succeeds
and the record's 13 fields equal the data line's first 13 fields in order;
and every response with at most 8 non-empty trimmed lines fails with the
(wrapped) insufficient-data error. -/
theorem optical_info_positional (hs : List GoStr) (d f1 f2 r7 : GoStr)
    (hlen : hs.length = 8)
    (hclean : ∀ l ∈ hs ++ [d, f1, f2], cleanLine l = true)
    (hcols : 13 ≤ (strSplit '\t' d).length)
    (hshort : (splitAndTrimLines (removeCR r7)).length ≤ 8) :
    buildONUInfoFromResponse (joinLines (hs ++ [d, f1, f2])) =
      GoOutcome.ok
        { OnuID := (strSplit '\t' d).getD 0 []
          RxPower := (strSplit '\t' d).getD 1 []
          RxPowerStatus := (strSplit '\t' d).getD 2 []
          TxPower := (strSplit '\t' d).getD 3 []
          TxPowerStatus := (strSplit '\t' d).getD 4 []
          CurrTxBias := (strSplit '\t' d).getD 5 []
          CurrTxBiasStatus := (strSplit '\t' d).getD 6 []
          Temperature := (strSplit '\t' d).getD 7 []
          TemperatureStatus := (strSplit '\t' d).getD 8 []
          Voltage := (strSplit '\t' d).getD 9 []
          VoltageStatus := (strSplit '\t' d).getD 10 []
          PTxPower := (strSplit '\t' d).getD 11 []
          PRxPower := (strSplit '\t' d).getD 12 [] }
    ∧ buildONUInfoFromResponse r7 =
        GoOutcome.error (str "informações ópticas receberam argumentos inválidos: " ++
          ErrInsufficientData) := by
  constructor
  · have hne : (hs ++ [d, f1, f2]) ≠ [] := by simp
    have hdrop : (hs ++ [d, f1, f2]).drop 8 = [d, f1, f2] := by
      rw [← hlen]; exact List.drop_left hs [d, f1, f2]
    rw [buildONUInfoFromResponse, parseResponseLines]
    simp only [splitAndTrimLines_joinLines _ hne hclean, goSlice, HeaderLines, FooterLines]
    norm_num [hlen, hdrop, Nat.not_lt.mpr hcols, RequiredColumns]
    simp [Int.toNat_ofNat, hdrop, Nat.not_lt.mpr hcols]
  · rw [buildONUInfoFromResponse, parseResponseLines]
    simp [HeaderLines, hshort]

/-- C6 witness: the positional and insufficient-data cases at concrete
responses. -/
theorem optical_info_positional_witness :
    (wHeaders ++ [wDataLine, str "f1", str "f2"]).all cleanLine = true
    ∧ buildONUInfoFromResponse (joinLines (wHeaders ++ [wDataLine, str "f1", str "f2"])) =
      GoOutcome.ok
        { OnuID := (strSplit '\t' wDataLine).getD 0 []
          RxPower := (strSplit '\t' wDataLine).getD 1 []
          RxPowerStatus := (strSplit '\t' wDataLine).getD 2 []
          TxPower := (strSplit '\t' wDataLine).getD 3 []
          TxPowerStatus := (strSplit '\t' wDataLine).getD 4 []
          CurrTxBias := (strSplit '\t' wDataLine).getD 5 []
          CurrTxBiasStatus := (strSplit '\t' wDataLine).getD 6 []
          Temperature := (strSplit '\t' wDataLine).getD 7 []
          TemperatureStatus := (strSplit '\t' wDataLine).getD 8 []
          Voltage := (strSplit '\t' wDataLine).getD 9 []
          VoltageStatus := (strSplit '\t' wDataLine).getD 10 []
          PTxPower := (strSplit '\t' wDataLine).getD 11 []
          PRxPower := (strSplit '\t' wDataLine).getD 12 [] }
    ∧ buildONUInfoFromResponse (str "a\nb\nc\nd\ne\nf\ng") =
        GoOutcome.error (str "informações ópticas receberam argumentos inválidos: " ++
          ErrInsufficientData) := by
  have h := optical_info_positional wHeaders wDataLine (str "f1") (str "f2")
    (str "a\nb\nc\nd\ne\nf\ng") (by decide) (by decide) (by decide) (by decide)
  exact ⟨by decide, h.1, h.2⟩

/-- `Option.getD` after mapping `trimSpace` (with `trimSpace [] = []`). -/
theorem optionMap_trimSpace_getD (o : Option GoStr) :
    (Option.map trimSpace o).getD [] = trimSpace (o.getD []) := by
  cases o <;> simp [trimSpace]

/-- The list-decoder's accumulating loop is a `filterMap` over the lines:
each line contributes independently of the others. -/
theorem buildONUs_foldl_filterMap (f : GoStr) (lines : List GoStr)
    (acc : List OpticalNetworkUnit) :
    lines.foldl (fun acc line =>
      if trimSpace line = [] then acc
      else
        match processONULine (trimSpace line) f with
        | GoOutcome.ok (some onu) => acc ++ [onu]
        | _ => acc) acc
    = acc ++ lines.filterMap (fun line =>
        if trimSpace line = [] then none
        else
          match processONULine (trimSpace line) f with
          | GoOutcome.ok (some onu) => some onu
          | _ => none) := by
  induction lines generalizing acc with
  | nil => simp
  | cons l ls ih =>
    rw [List.foldl_cons, List.filterMap_cons]
    by_cases h : trimSpace l = []
    · simp [h, ih]
    · cases hp : processONULine (trimSpace l) f with
      | ok o =>
        cases o with
        | some onu => simp [h, hp, ih]
        | none => simp [h, hp, ih]
      | error e => simp [h, hp, ih]
      | panic => simp [h, hp, ih]

/-- The decoded ONU list is the per-line `filterMap` of the response. -/
theorem buildONUs_fst_eq_filterMap (r f : GoStr) :
    (buildONUsFromResponse r f).1 = (strSplit '\n' r).filterMap (fun line =>
        if trimSpace line = [] then none
        else
          match processONULine (trimSpace line) f with
          | GoOutcome.ok (some onu) => some onu
          | _ => none) := by
  simp [buildONUsFromResponse, buildONUs_foldl_filterMap]

/-- `matchesFilter` unfolded to the two case-insensitive substring tests. -/
theorem matchesFilter_eq_true_iff (n d f : GoStr) :
    matchesFilter n d f = true ↔
      (goContains (goLower n) (goLower f) = true ∨ goContains (goLower d) (goLower f) = true) := by
  simp [matchesFilter]

/-- One line's fate: skipped when its field count differs from 12 or its
first field is the header token, skipped when a non-empty filter matches
neither name nor description case-insensitively, otherwise a record of the
12 trimmed fields; and never an error or panic. -/
theorem processONULine_characterization (line f : GoStr) :
    processONULine line f = GoOutcome.ok (
      if (strSplit '\t' line).length ≠ 12 ∨ (strSplit '\t' line).getD 0 [] = str "OLTID" then
        none
      else if f ≠ [] ∧
          ¬ (goContains (goLower ((strSplit '\t' line).getD 3 [])) (goLower f) = true ∨
             goContains (goLower ((strSplit '\t' line).getD 4 [])) (goLower f) = true) then
        none
      else some
        { OltID := trimSpace ((strSplit '\t' line).getD 0 [])
          PonID := trimSpace ((strSplit '\t' line).getD 1 [])
          OnuNo := trimSpace ((strSplit '\t' line).getD 2 [])
          Name := trimSpace ((strSplit '\t' line).getD 3 [])
          Desc := trimSpace ((strSplit '\t' line).getD 4 [])
          OnuType := trimSpace ((strSplit '\t' line).getD 5 [])
          IP := trimSpace ((strSplit '\t' line).getD 6 [])
          AuthType := trimSpace ((strSplit '\t' line).getD 7 [])
          Mac := trimSpace ((strSplit '\t' line).getD 8 [])
          LoID := trimSpace ((strSplit '\t' line).getD 9 [])
          Pwd := trimSpace ((strSplit '\t' line).getD 10 [])
          SwVer := trimSpace ((strSplit '\t' line).getD 11 []) }) := by
  simp only [processONULine]
  by_cases h1 : (strSplit '\t' line).length ≠ 12 ∨ (strSplit '\t' line).getD 0 [] = str "OLTID"
  · rw [if_pos h1, if_pos h1]
  · rw [if_neg h1, if_neg h1]
    by_cases h2 : f ≠ [] ∧
        ¬ matchesFilter ((strSplit '\t' line).getD 3 []) ((strSplit '\t' line).getD 4 []) f = true
    · have h2' := h2
      rw [matchesFilter_eq_true_iff] at h2'
      rw [if_pos h2, if_pos h2']
    · have h2' := h2
      rw [matchesFilter_eq_true_iff] at h2'
      rw [if_neg h2, if_neg h2']
      have hlen : ¬ ((strSplit '\t' line).length < 12) := by
        push_neg at h1
        omega
      rw [createONUFromAttributes, if_neg hlen]
      simp [optionMap_trimSpace_getD]

/-- C7: the ONU-list decoder never aborts — its error component is `nil`
for every response and filter; the decoded list is a per-line `filterMap`
(so a skipped line never affects the others); and each line yields a
record of its 12 trimmed fields exactly when it has 12 tab-separated
fields, its first field is not the `OLTID` header token, and the filter is
empty or a case-insensitive substring of field 4 (name) or field 5
(description). -/
theorem onu_list_decoding (r f line : GoStr) :
    (buildONUsFromResponse r f).2 = none
    ∧ (buildONUsFromResponse r f).1 = (strSplit '\n' r).filterMap (fun l =>
        if trimSpace l = [] then none
        else
          match processONULine (trimSpace l) f with
          | GoOutcome.ok (some onu) => some onu
          | _ => none)
    ∧ processONULine line f = GoOutcome.ok (
        if (strSplit '\t' line).length ≠ 12 ∨ (strSplit '\t' line).getD 0 [] = str "OLTID" then
          none
        else if f ≠ [] ∧
            ¬ (goContains (goLower ((strSplit '\t' line).getD 3 [])) (goLower f) = true ∨
               goContains (goLower ((strSplit '\t' line).getD 4 [])) (goLower f) = true) then
          none
        else some
          { OltID := trimSpace ((strSplit '\t' line).getD 0 [])
            PonID := trimSpace ((strSplit '\t' line).getD 1 [])
            OnuNo := trimSpace ((strSplit '\t' line).getD 2 [])
            Name := trimSpace ((strSplit '\t' line).getD 3 [])
            Desc := trimSpace ((strSplit '\t' line).getD 4 [])
            OnuType := trimSpace ((strSplit '\t' line).getD 5 [])
            IP := trimSpace ((strSplit '\t' line).getD 6 [])
            AuthType := trimSpace ((strSplit '\t' line).getD 7 [])
            Mac := trimSpace ((strSplit '\t' line).getD 8 [])
            LoID := trimSpace ((strSplit '\t' line).getD 9 [])
            Pwd := trimSpace ((strSplit '\t' line).getD 10 [])
            SwVer := trimSpace ((strSplit '\t' line).getD 11 []) }) := by
  exact ⟨by simp [buildONUsFromResponse], buildONUs_fst_eq_filterMap r f,
    processONULine_characterization line f⟩

/-- The leftmost `EADD=` marker after an `E`-free prefix starts the match;
the group captures greedily to the end of the line. -/
theorem eaddCapture_after_marker (a rest : GoStr) (hE : ∀ c ∈ a, c ≠ 'E') :
    eaddCapture (a ++ (str "EADD=" ++ rest)) =
      some (rest.takeWhile (fun d => decide (d ≠ '\n'))) := by
  have hm : str "EADD=" = 'E' :: 'A' :: 'D' :: 'D' :: '=' :: [] := rfl
  induction a with
  | nil =>
    rw [List.nil_append, hm]
    simp only [List.cons_append, List.nil_append]
    rw [eaddCapture]
    rw [if_pos]
    · simp
    · simp [hm, strStartsWith]
  | cons c t ih =>
    rw [List.cons_append, eaddCapture, if_neg]
    · exact ih fun d hd => hE d (List.mem_cons_of_mem c hd)
    · simp [hm, strStartsWith, hE c (List.mem_cons_self c t)]

/-- The greedy line capture stops exactly at the newline. -/
theorem takeWhile_append_newline (m b : GoStr) (hm : ∀ c ∈ m, c ≠ '\n') :
    (m ++ '\n' :: b).takeWhile (fun d => decide (d ≠ '\n')) = m := by
  induction m with
  | nil => simp [List.takeWhile_cons]
  | cons c t ih =>
    rw [List.cons_append,
      List.takeWhile_cons_of_pos (by simp [hm c (List.mem_cons_self c t)]),
      ih (fun d hd => hm d (List.mem_cons_of_mem c hd))]

/-- C9: even when the transport exchange succeeds, `sendCommand` fails
with a server error carrying the trimmed `EADD=` message whenever the
response contains the marker with a non-empty trimmed message, and
succeeds when the marker is absent or its message trims to empty; for a
response of the shape `a ++ "EADD=" ++ m ++ "\n" ++ b` (marker not in
`a`), the captured message is exactly `m`, and the call's result is the
server error with `trimSpace m` unless `m` trims to empty. -/
theorem sendCommand_eadd_server_error (resp a m b cmd : GoStr) (st : ClientSt Unit)
    (hE : ∀ c ∈ a, c ≠ 'E') (hm : ∀ c ∈ m, c ≠ '\n') :
    (sendCommand (fixedRespOps resp) st cmd).2 =
      (match eaddCapture resp with
       | some cap =>
         if trimSpace cap = [] then Except.ok resp
         else Except.error (str "erro do servidor UNM: " ++ trimSpace cap)
       | none => Except.ok resp)
    ∧ eaddCapture (a ++ (str "EADD=" ++ (m ++ '\n' :: b))) = some m
    ∧ (sendCommand (fixedRespOps (a ++ (str "EADD=" ++ (m ++ '\n' :: b)))) st cmd).2 =
        (if trimSpace m = [] then Except.ok (a ++ (str "EADD=" ++ (m ++ '\n' :: b)))
         else Except.error (str "erro do servidor UNM: " ++ trimSpace m)) := by
  have hcap : eaddCapture (a ++ (str "EADD=" ++ (m ++ '\n' :: b))) = some m := by
    rw [eaddCapture_after_marker a (m ++ '\n' :: b) hE, takeWhile_append_newline m b hm]
  have hgen : ∀ resp' : GoStr, (sendCommand (fixedRespOps resp') st cmd).2 =
      (match eaddCapture resp' with
       | some cap =>
         if trimSpace cap = [] then Except.ok resp'
         else Except.error (str "erro do servidor UNM: " ++ trimSpace cap)
       | none => Except.ok resp') := by
    intro resp'
    simp only [sendCommand, fixedRespOps, isResponseErr]
    cases eaddCapture resp' with
    | none => rfl
    | some cap =>
      by_cases h : trimSpace cap = []
      · simp [h]
      · simp [h]
  refine ⟨hgen resp, hcap, ?_⟩
  rw [hgen _, hcap]

/-- C9 witness: a concrete response with `EADD= Some failure ` yields the
server error with the trimmed message. -/
theorem sendCommand_eadd_server_error_witness :
    (str "alarm: ").all (fun c => decide (c ≠ 'E')) = true
    ∧ (str " Some failure ").all (fun c => decide (c ≠ '\n')) = true
    ∧ (sendCommand
        (fixedRespOps (str "alarm: " ++ (str "EADD=" ++ (str " Some failure " ++ '\n' :: str "tail;"))))
        { tr := (), connected := true } (str "Q;")).2 =
        (if trimSpace (str " Some failure ") = []
         then Except.ok (str "alarm: " ++ (str "EADD=" ++ (str " Some failure " ++ '\n' :: str "tail;")))
         else Except.error (str "erro do servidor UNM: " ++ trimSpace (str " Some failure "))) := by
  exact ⟨by decide, by decide,
    (sendCommand_eadd_server_error (str "ok;") (str "alarm: ") (str " Some failure ")
      (str "tail;") (str "Q;") { tr := (), connected := true } (by decide) (by decide)).2.2⟩
